import Mathlib

/-!
Verification of the secret-provisioning pipeline of `pkg/cmd/secret/set/set.go`
(the `gh secret set` command): name validation, target/visibility resolution,
public-key retrieval, sealed-box encryption, and dispatch to exactly one of the
three write endpoints.  Go strings are Lean `String`s, byte slices are
`List Nat`, Go `error` results are `Option GoError` / `Except GoError`, and the
effectful collaborators of `setRun` are supplied as explicit inputs (`RunEnv`),
with the network calls the run performs recorded as a trace of `NetEvent`s.
-/

/-- Result of a Go `error` value: `cmdutil.FlagError` wrapping a message, or a
plain `errors.New` / wrapped error with a message. -/
inductive GoError where
  | flagError (msg : String)
  | plainError (msg : String)
deriving DecidableEq

/-- The option fields of `SetOptions` that carry request data (`SecretName`,
`OrgName`, `EnvName`, `Body`, `Visibility`, `RepositoryNames`); the collaborator
fields (`HttpClient`, `IO`, `Config`, `BaseRepo`, `RandomOverride`) are modelled
separately as `RunEnv`. -/
structure SetOptions where
  secretName : String
  orgName : String
  envName : String
  body : String
  visibility : String
  repositoryNames : List String
deriving DecidableEq

/-- Character class of the Go regexp `([0-9]|[a-z]|[A-Z]|_)` used by
`validSecretName`. -/
def isWordChar (c : Char) : Bool := c.isDigit || c.isLower || c.isUpper || c == '_'

/-- The Go regexp test `^[0-9]` of `validSecretName`: the first character is a
digit. -/
def leadingNumber (name : String) : Bool :=
  match name.data with
  | [] => false
  | c :: _ => c.isDigit

/-- The Go regexp test `^([0-9]|[a-z]|[A-Z]|_)+$`: non-empty and every
character in the class. -/
def validChars (name : String) : Bool :=
  !name.data.isEmpty && name.data.all isWordChar

/-- `validSecretName` of set.go: blank check, reserved `GITHUB_` prefix check
(`strings.HasPrefix`), leading digit check, character-set check, in that order;
`none` means the name is accepted. -/
def validSecretName (name : String) : Option GoError :=
  if name = "" then
    some (.plainError "secret name cannot be blank")
  else if List.isPrefixOf "GITHUB_".data name.data then
    some (.plainError "secret name cannot begin with GITHUB_")
  else if leadingNumber name then
    some (.plainError "secret name cannot start with a number")
  else if !validChars name then
    some (.plainError "secret name can only contain letters, numbers, and _")
  else
    none

/-- Specification-side predicate: the name matches `^[A-Za-z_][A-Za-z0-9_]*$`
(first character a letter or underscore, the rest word characters).  Written
from the spec text of C4, to be compared with `validSecretName`. -/
def matchesSecretRegex (name : String) : Bool :=
  match name.data with
  | [] => false
  | c :: rest => (c.isLower || c.isUpper || c == '_') && rest.all isWordChar

lemma string_eq_empty_iff (s : String) : s = "" ↔ s.data = [] := by
  cases s with
  | mk d =>
    constructor
    · intro h
      rw [h]
    · intro h
      rw [show d = [] from h]

/-- Modelled from the spec: the visibility constants `shared.All`,
`shared.Private`, `shared.Selected` come from pkg/cmd/secret/shared, which is
not under src/; section 4.2 of the spec fixes the value set to
all, private, selected. -/
def sharedAll : String := "all"

/-- Modelled from the spec: see `sharedAll`. -/
def sharedPrivate : String := "private"

/-- Modelled from the spec: see `sharedAll`. -/
def sharedSelected : String := "selected"

/-- The message passed to `cmdutil.MutuallyExclusive` in `NewCmdSet`. -/
def mutuallyExclusiveMsg : String := "specify only one of `--org` or `--env`"

/-- Modelled from the spec: `cmdutil.MutuallyExclusive` lives in pkg/cmdutil,
which is not under src/; per spec section 4.2 step 1 the call fails (with a
`FlagError` holding the given message) exactly when more than one of the given
conditions holds. -/
def mutuallyExclusive (message : String) (conds : List Bool) : Option GoError :=
  if 2 ≤ conds.countP (fun b => b) then some (.flagError message) else none

/-- The body of the `if cmd.Flags().Changed("visibility")` branch of
`NewCmdSet`: the four visibility checks of set.go in source order, `none`
meaning all pass. -/
def visibilityChecks (opts : SetOptions) (reposChanged : Bool) : Option GoError :=
  if opts.orgName = "" then
    some (.flagError "--visibility not supported for repository secrets; did you mean to pass --org?")
  else if opts.visibility ≠ sharedAll ∧ opts.visibility ≠ sharedPrivate ∧ opts.visibility ≠ sharedSelected then
    some (.flagError "--visibility must be one of `all`, `private`, or `selected`")
  else if opts.visibility ≠ sharedSelected ∧ reposChanged = true then
    some (.flagError "--repos only supported when --visibility=\x27selected\x27")
  else if opts.visibility = sharedSelected ∧ reposChanged = false then
    some (.flagError "--repos flag required when --visibility=\x27selected\x27")
  else
    none

/-- The visibility-resolution step of `NewCmdSet`: when the visibility flag was
explicitly set, run `visibilityChecks`; otherwise an explicitly set repos flag
implicitly resolves the visibility to `selected`. -/
def resolveVisibility (opts : SetOptions) (visibilityChanged reposChanged : Bool) :
    Except GoError SetOptions :=
  if visibilityChanged = true then
    match visibilityChecks opts reposChanged with
    | some e => .error e
    | none => .ok opts
  else if reposChanged = true then
    .ok { opts with visibility := sharedSelected }
  else
    .ok opts

/-- The pre-`setRun` validation sequence of `NewCmdSet`'s `RunE`:
`cmdutil.MutuallyExclusive` on org/env, then `validSecretName`, then the
visibility resolution, returning the (possibly updated) options. -/
def checkFlags (opts : SetOptions) (visibilityChanged reposChanged : Bool) :
    Except GoError SetOptions :=
  match mutuallyExclusive mutuallyExclusiveMsg [opts.orgName != "", opts.envName != ""] with
  | some e => .error e
  | none =>
    match validSecretName opts.secretName with
    | some e => .error e
    | none => resolveVisibility opts visibilityChanged reposChanged

/-- UTF-8 encoding of one character, as Go's `[]byte(string)` produces it,
with each byte a `Nat`. -/
def utf8EncodeCharNat (c : Char) : List Nat :=
  let n := c.toNat
  if n < 128 then [n]
  else if n < 2048 then [192 + n / 64, 128 + n % 64]
  else if n < 65536 then [224 + n / 4096, 128 + n / 64 % 64, 128 + n % 64]
  else [240 + n / 262144, 128 + n / 4096 % 64, 128 + n / 64 % 64, 128 + n % 64]

/-- The byte sequence of a Go string conversion `[]byte(s)`. -/
def strBytes (s : String) : List Nat := (s.data.map utf8EncodeCharNat).flatten

/-- `getBody` of set.go.  The collaborators are explicit inputs: whether the
streams can prompt, the outcome of the interactive password prompt (which the
code stores back into `opts.Body` before converting it to bytes), and the full
contents of standard input. -/
def getBody (body : String) (canPrompt : Bool) (promptResult : Except String String)
    (stdinContents : Except String (List Nat)) : Except String (List Nat) :=
  if body = "" then
    if canPrompt = true then
      match promptResult with
      | .error e => .error e
      | .ok answer => .ok (strBytes answer)
    else
      match stdinContents with
      | .error e => .error ("failed to read from STDIN: " ++ e)
      | .ok bs => .ok bs
  else
    .ok (strBytes body)

/-- Modelled from the spec: byte mixing used as a stand-in for the hash / key
derivation / cipher primitives inside `box.SealAnonymous`
(golang.org/x/crypto/nacl/box), which is third-party code not under src/.
Spec section 4.4 fixes only the structure and output lengths of the sealed box,
not the primitive internals; `mix seed n` is an arbitrary deterministic
`n`-byte digest of `seed`. -/
def mixByte (seed : List Nat) (i : Nat) : Nat :=
  (seed.foldl (fun acc b => (acc * 131 + b + 7) % 256) (i + 1)) % 256

/-- Modelled from the spec: see `mixByte`. -/
def mix (seed : List Nat) (n : Nat) : List Nat := (List.range n).map (mixByte seed)

/-- Modelled from the spec: `io.ReadFull` of the injected randomness reader, as
used by `box.GenerateKey`; reading `n` bytes fails when the deterministic
source has fewer than `n` bytes left (spec: randomness source exhaustion is a
`CryptoError`). -/
def readFull (n : Nat) (r : List Nat) : Option (List Nat) :=
  if n ≤ r.length then some (r.take n) else none

/-- Modelled from the spec: the authenticated encryption step of the sealed
box, per section 4.4 — a length-preserving cipher of the message under the
shared key and nonce, prefixed by a 16-byte authentication tag. -/
def boxSeal (message nonce recipientKey ephemeralKey : List Nat) : List Nat :=
  let sharedKey := mix (ephemeralKey ++ recipientKey) 32
  let cipher := List.zipWith (fun m k => (m + k) % 256) message (mix (sharedKey ++ nonce) message.length)
  mix (sharedKey ++ nonce ++ cipher) 16 ++ cipher

/-- Modelled from the spec: `box.SealAnonymous` (golang.org/x/crypto/nacl/box)
is not under src/.  Per spec section 4.4: generate a fresh key pair from the
injected randomness source (32 bytes read), derive a 24-byte nonce by hashing
ephemeral public key concatenated with recipient public key, and output
ephemeral public key concatenated with the authenticated ciphertext; a
malformed (non-32-byte) recipient key or an exhausted randomness source is an
error. -/
def sealAnonymous (message recipientKey : List Nat) (rand : List Nat) :
    Except String (List Nat) :=
  if recipientKey.length ≠ 32 then .error "bad-key"
  else
    match readFull 32 rand with
    | none => .error "rng-failure"
    | some seed =>
      let ephemeralPub := mix seed 32
      let nonce := mix (ephemeralPub ++ recipientKey) 24
      .ok (ephemeralPub ++ boxSeal message nonce recipientKey seed)

/-- The standard base64 alphabet used by `base64.StdEncoding`. -/
def base64Alphabet : List Char :=
  "ABCDEFGHIJKLMNOPQRSTUVWXYZabcdefghijklmnopqrstuvwxyz0123456789+/".data

/-- One base64 digit. -/
def b64char (n : Nat) : Char := base64Alphabet.getD n 'A'

/-- Character stream of `base64.StdEncoding.EncodeToString`, with `=` padding. -/
def base64Chars : List Nat → List Char
  | [] => []
  | [a] => [b64char (a / 4 % 64), b64char (a % 4 * 16), '=', '=']
  | [a, b] => [b64char (a / 4 % 64), b64char (a % 4 * 16 + b / 16), b64char (b % 16 * 4), '=']
  | a :: b :: c :: rest =>
      b64char (a / 4 % 64) :: b64char (a % 4 * 16 + b / 16) :: b64char (b % 16 * 4 + c / 64) ::
        b64char (c % 64) :: base64Chars rest

/-- `base64.StdEncoding.EncodeToString` of set.go. -/
def base64Encode (bs : List Nat) : String := String.mk (base64Chars bs)

/-- A resolved base repository (`ghrepo.Interface`): owner and name. -/
structure Repo where
  owner : String
  name : String
deriving DecidableEq

/-- Modelled from the spec: the `PubKey` type of the set package is declared
outside src/; per spec section 3 it carries opaque 32-byte key material
(`Raw`) and an opaque key identifier. -/
structure PubKey where
  raw : List Nat
  keyID : String
deriving DecidableEq

/-- One remote call made by `setRun`: a public-key fetch
(`getOrgPublicKey` / `getRepoPubKey`) or a secret write
(`putOrgSecret` / `putEnvSecret` / `putRepoSecret`), with its routing data. -/
inductive NetEvent where
  | fetchOrgKey (host orgName : String)
  | fetchRepoKey (owner repoName : String)
  | putOrg (host orgName secretName encoded : String)
  | putEnv (owner repoName envName secretName encoded : String)
  | putRepo (owner repoName secretName encoded : String)
deriving DecidableEq

def NetEvent.isOrgKeyFetch : NetEvent → Bool
  | .fetchOrgKey _ _ => true
  | _ => false

def NetEvent.isRepoKeyFetch : NetEvent → Bool
  | .fetchRepoKey _ _ => true
  | _ => false

def NetEvent.isOrgWrite : NetEvent → Bool
  | .putOrg _ _ _ _ => true
  | _ => false

def NetEvent.isEnvWrite : NetEvent → Bool
  | .putEnv _ _ _ _ _ => true
  | _ => false

def NetEvent.isRepoWrite : NetEvent → Bool
  | .putRepo _ _ _ _ => true
  | _ => false

/-- A key-fetch call of either kind. -/
def NetEvent.isKeyFetch (e : NetEvent) : Bool := e.isOrgKeyFetch || e.isRepoKeyFetch

/-- A write call of any of the three kinds. -/
def NetEvent.isWrite (e : NetEvent) : Bool := e.isOrgWrite || e.isEnvWrite || e.isRepoWrite

/-- The effectful collaborators of `setRun`, supplied as explicit inputs:
prompt/stdin behaviour for `getBody`, the outcomes of client, base-repo,
config and host lookup, of the two key-fetch calls and the three write calls
(`none` meaning the write succeeded), and the byte stream of the injected
`RandomOverride` randomness reader. -/
structure RunEnv where
  canPrompt : Bool
  promptResult : Except String String
  stdinContents : Except String (List Nat)
  httpClient : Except String Unit
  baseRepo : Except String Repo
  config : Except String Unit
  defaultHost : Except String String
  orgKey : Except String PubKey
  repoKey : Except String PubKey
  putOrgResult : Option String
  putEnvResult : Option String
  putRepoResult : Option String
  randomBytes : List Nat

/-- The organization branch of `setRun` after client/config/host setup:
`getOrgPublicKey`, `box.SealAnonymous`, base64, `putOrgSecret`, with the
remote calls recorded in order. -/
def orgFlow (opts : SetOptions) (env : RunEnv) (body : List Nat) (host : String) :
    Except GoError Unit × List NetEvent :=
  let fetchEvent := NetEvent.fetchOrgKey host opts.orgName
  match env.orgKey with
  | .error e => (.error (.plainError ("failed to fetch public key: " ++ e)), [fetchEvent])
  | .ok pk =>
    match sealAnonymous body pk.raw env.randomBytes with
    | .error e => (.error (.plainError ("failed to encrypt body: " ++ e)), [fetchEvent])
    | .ok sealed =>
      let encoded := base64Encode sealed
      let writeEvent := NetEvent.putOrg host opts.orgName opts.secretName encoded
      match env.putOrgResult with
      | some e => (.error (.plainError ("failed to set secret: " ++ e)), [fetchEvent, writeEvent])
      | none => (.ok (), [fetchEvent, writeEvent])

/-- The repository/environment branch of `setRun`: `getRepoPubKey`,
`box.SealAnonymous`, base64, then `putEnvSecret` when `envName` is non-empty
and `putRepoSecret` otherwise. -/
def repoFlow (opts : SetOptions) (env : RunEnv) (body : List Nat) (baseRepo : Repo) :
    Except GoError Unit × List NetEvent :=
  let fetchEvent := NetEvent.fetchRepoKey baseRepo.owner baseRepo.name
  match env.repoKey with
  | .error e => (.error (.plainError ("failed to fetch public key: " ++ e)), [fetchEvent])
  | .ok pk =>
    match sealAnonymous body pk.raw env.randomBytes with
    | .error e => (.error (.plainError ("failed to encrypt body: " ++ e)), [fetchEvent])
    | .ok sealed =>
      let encoded := base64Encode sealed
      let writeEvent :=
        if opts.envName != "" then
          NetEvent.putEnv baseRepo.owner baseRepo.name opts.envName opts.secretName encoded
        else
          NetEvent.putRepo baseRepo.owner baseRepo.name opts.secretName encoded
      match (if opts.envName != "" then env.putEnvResult else env.putRepoResult) with
      | some e => (.error (.plainError ("failed to set secret: " ++ e)), [fetchEvent, writeEvent])
      | none => (.ok (), [fetchEvent, writeEvent])

/-- `setRun` of set.go: obtain the body, build the client, resolve the base
repository (only when no organization is targeted), load config and default
host, then fetch the scope-appropriate public key, seal the body, and make
exactly one write call; the result is paired with the trace of remote calls
made. -/
def setRun (opts : SetOptions) (env : RunEnv) : Except GoError Unit × List NetEvent :=
  match getBody opts.body env.canPrompt env.promptResult env.stdinContents with
  | .error e => (.error (.plainError ("did not understand secret body: " ++ e)), [])
  | .ok body =>
    match env.httpClient with
    | .error e => (.error (.plainError ("could not create http client: " ++ e)), [])
    | .ok _ =>
      if opts.orgName = "" then
        match env.baseRepo with
        | .error e => (.error (.plainError ("could not determine base repo: " ++ e)), [])
        | .ok baseRepo =>
          match env.config with
          | .error e => (.error (.plainError e), [])
          | .ok _ =>
            match env.defaultHost with
            | .error e => (.error (.plainError e), [])
            | .ok _ => repoFlow opts env body baseRepo
      else
        match env.config with
        | .error e => (.error (.plainError e), [])
        | .ok _ =>
          match env.defaultHost with
          | .error e => (.error (.plainError e), [])
          | .ok host => orgFlow opts env body host

/-- A full invocation of the command: the `RunE` flag validation
(`checkFlags`) followed by `setRun` on the resolved options. -/
def runCommand (opts : SetOptions) (visibilityChanged reposChanged : Bool) (env : RunEnv) :
    Except GoError Unit × List NetEvent :=
  match checkFlags opts visibilityChanged reposChanged with
  | .error e => (.error e, [])
  | .ok resolved => setRun resolved env

/-- The key fetch appropriate for the scope the options resolve to: the
repo-level key when `orgName` is empty, the org-level key otherwise. -/
def goodFetch (opts : SetOptions) (e : NetEvent) : Bool :=
  if opts.orgName = "" then e.isRepoKeyFetch else e.isOrgKeyFetch

/-- The write endpoint appropriate for the scope the options resolve to. -/
def goodWrite (opts : SetOptions) (e : NetEvent) : Bool :=
  if opts.orgName = "" then
    (if opts.envName = "" then e.isRepoWrite else e.isEnvWrite)
  else e.isOrgWrite

lemma digit_not_letter (c : Char) (h : c.isDigit = true) :
    c.isLower = false ∧ c.isUpper = false ∧ (c == '_') = false := by
  simp only [Char.isDigit, Bool.and_eq_true, decide_eq_true_eq] at h
  refine ⟨?_, ?_, ?_⟩
  · rcases Bool.eq_false_or_eq_true c.isLower with ht | hf
    · exfalso
      simp only [Char.isLower, Bool.and_eq_true, decide_eq_true_eq] at ht
      exact absurd (UInt32.le_trans ht.1 h.2) (by decide)
    · exact hf
  · rcases Bool.eq_false_or_eq_true c.isUpper with ht | hf
    · exfalso
      simp only [Char.isUpper, Bool.and_eq_true, decide_eq_true_eq] at ht
      exact absurd (UInt32.le_trans ht.1 h.2) (by decide)
    · exact hf
  · rcases Bool.eq_false_or_eq_true (c == '_') with ht | hf
    · exfalso
      rw [beq_iff_eq] at ht
      subst ht
      exact absurd h.2 (by decide)
    · exact hf

lemma letter_not_digit (c : Char) (h : (c.isLower || c.isUpper || c == '_') = true) :
    c.isDigit = false := by
  rcases Bool.eq_false_or_eq_true c.isDigit with ht | hf
  · obtain ⟨h1, h2, h3⟩ := digit_not_letter c ht
    simp [h1, h2, h3] at h
  · exact hf

lemma matches_of_checks (name : String) (h0 : name.data ≠ [])
    (hln : leadingNumber name = false) (hvc : validChars name = true) :
    matchesSecretRegex name = true := by
  cases hdata : name.data with
  | nil => exact absurd hdata h0
  | cons c rest =>
    simp only [leadingNumber, hdata] at hln
    simp only [validChars, hdata, List.all_cons, Bool.and_eq_true] at hvc
    simp only [matchesSecretRegex, hdata, Bool.and_eq_true]
    obtain ⟨_, h1, h2⟩ := hvc
    refine ⟨?_, h2⟩
    rw [isWordChar, hln] at h1
    simpa using h1

lemma checks_of_matches (name : String) (hm : matchesSecretRegex name = true) :
    name.data ≠ [] ∧ leadingNumber name = false ∧ validChars name = true := by
  cases hdata : name.data with
  | nil => simp [matchesSecretRegex, hdata] at hm
  | cons c rest =>
    simp only [matchesSecretRegex, hdata, Bool.and_eq_true] at hm
    have hd : c.isDigit = false := letter_not_digit c hm.1
    refine ⟨by simp [hdata], ?_, ?_⟩
    · simp only [leadingNumber, hdata]
      exact hd
    · simp only [validChars, hdata, List.all_cons, Bool.and_eq_true, List.isEmpty_cons,
        Bool.not_false]
      refine ⟨trivial, ?_, hm.2⟩
      rw [isWordChar, hd]
      simpa using hm.1

/-- C4: `validSecretName` accepts exactly the names matching
`^[A-Za-z_][A-Za-z0-9_]*$` that do not start with the case-sensitive prefix
`GITHUB_`; any other name is rejected with the error of the first violated
rule, checked in the fixed order blank, reserved `GITHUB_` prefix, leading
digit, character outside the word-character class. -/
theorem valid_secret_name_correct (name : String) :
    (validSecretName name = none ↔
      (matchesSecretRegex name = true ∧
        List.isPrefixOf "GITHUB_".data name.data = false)) ∧
    (name = "" →
      validSecretName name = some (.plainError "secret name cannot be blank")) ∧
    (name ≠ "" → List.isPrefixOf "GITHUB_".data name.data = true →
      validSecretName name = some (.plainError "secret name cannot begin with GITHUB_")) ∧
    (name ≠ "" → List.isPrefixOf "GITHUB_".data name.data = false →
      leadingNumber name = true →
      validSecretName name = some (.plainError "secret name cannot start with a number")) ∧
    (name ≠ "" → List.isPrefixOf "GITHUB_".data name.data = false →
      leadingNumber name = false → validChars name = false →
      validSecretName name =
        some (.plainError "secret name can only contain letters, numbers, and _")) := by
  refine ⟨⟨?_, ?_⟩, ?_, ?_, ?_, ?_⟩
  · intro hnone
    have h0 : ¬ name = "" := by
      intro h
      rw [h] at hnone
      simp [validSecretName] at hnone
    cases hpb : List.isPrefixOf "GITHUB_".data name.data with
    | true => simp [validSecretName, h0, hpb] at hnone
    | false =>
      cases hln : leadingNumber name with
      | true => simp [validSecretName, h0, hpb, hln] at hnone
      | false =>
        cases hvc : validChars name with
        | false => simp [validSecretName, h0, hpb, hln, hvc] at hnone
        | true =>
          have hd : name.data ≠ [] := fun h => h0 ((string_eq_empty_iff name).mpr h)
          exact ⟨matches_of_checks name hd hln hvc, rfl⟩
  · rintro ⟨hm, hpf⟩
    obtain ⟨hd, hln, hvc⟩ := checks_of_matches name hm
    have h0 : ¬ name = "" := fun h => hd ((string_eq_empty_iff name).mp h)
    simp [validSecretName, h0, hpf, hln, hvc]
  · intro h
    rw [h]
    simp [validSecretName]
  · intro h0 hp
    simp [validSecretName, h0, hp]
  · intro h0 hp hln
    simp [validSecretName, h0, hp, hln]
  · intro h0 hp hln hvc
    simp [validSecretName, h0, hp, hln, hvc]

/-- Witness for C4 at concrete names, one per rule and one accepted name. -/
theorem valid_secret_name_correct_witness :
    validSecretName "MYSECRET" = none ∧
    validSecretName "" = some (.plainError "secret name cannot be blank") ∧
    validSecretName "GITHUB_TOKEN" =
      some (.plainError "secret name cannot begin with GITHUB_") ∧
    validSecretName "9SECRET" =
      some (.plainError "secret name cannot start with a number") ∧
    validSecretName "BAD-NAME" =
      some (.plainError "secret name can only contain letters, numbers, and _") :=
  ⟨(valid_secret_name_correct "MYSECRET").1.mpr (by decide),
   (valid_secret_name_correct "").2.1 rfl,
   (valid_secret_name_correct "GITHUB_TOKEN").2.2.1 (by decide) (by decide),
   (valid_secret_name_correct "9SECRET").2.2.2.1 (by decide) (by decide) (by decide),
   (valid_secret_name_correct "BAD-NAME").2.2.2.2 (by decide) (by decide) (by decide) (by decide)⟩

lemma mutual_some (opts : SetOptions) (h1 : opts.orgName ≠ "") (h2 : opts.envName ≠ "") :
    mutuallyExclusive mutuallyExclusiveMsg [opts.orgName != "", opts.envName != ""] =
      some (.flagError mutuallyExclusiveMsg) := by
  unfold mutuallyExclusive
  rw [if_pos]
  simp [List.countP_cons, List.countP_nil, bne_iff_ne, h1, h2]

lemma mutual_none (opts : SetOptions) (h : ¬(opts.orgName ≠ "" ∧ opts.envName ≠ "")) :
    mutuallyExclusive mutuallyExclusiveMsg [opts.orgName != "", opts.envName != ""] = none := by
  unfold mutuallyExclusive
  rw [if_neg]
  by_cases h1 : opts.orgName = "" <;> by_cases h2 : opts.envName = "" <;>
    simp_all [List.countP_cons, List.countP_nil, bne_iff_ne]

lemma checkFlags_mutual (opts : SetOptions) (vc rc : Bool)
    (h1 : opts.orgName ≠ "") (h2 : opts.envName ≠ "") :
    checkFlags opts vc rc = .error (.flagError mutuallyExclusiveMsg) := by
  unfold checkFlags
  rw [mutual_some opts h1 h2]

lemma checkFlags_name (opts : SetOptions) (vc rc : Bool) (e : GoError)
    (h : ¬(opts.orgName ≠ "" ∧ opts.envName ≠ ""))
    (hn : validSecretName opts.secretName = some e) :
    checkFlags opts vc rc = .error e := by
  unfold checkFlags
  rw [mutual_none opts h, hn]

lemma checkFlags_vis (opts : SetOptions) (rc : Bool) (e : GoError)
    (h : ¬(opts.orgName ≠ "" ∧ opts.envName ≠ ""))
    (hn : validSecretName opts.secretName = none)
    (hv : visibilityChecks opts rc = some e) :
    checkFlags opts true rc = .error e := by
  unfold checkFlags
  rw [mutual_none opts h, hn]
  unfold resolveVisibility
  rw [if_pos rfl, hv]

/-- A fully concrete collaborator environment in which every external call
succeeds. -/
def sampleEnv : RunEnv :=
  ⟨false, .ok "x", .ok [], .ok (), .ok ⟨"OWNER", "REPO"⟩, .ok (), .ok "github.com",
   .ok ⟨List.replicate 32 1, "key-id-1"⟩, .ok ⟨List.replicate 32 2, "key-id-2"⟩,
   none, none, none, List.range 32⟩

/-- Options naming both an organization and an environment target. -/
def bothTargetsOpts : SetOptions := ⟨"MYSECRET", "anOrg", "anEnv", "val", "private", ["repo1"]⟩

/-- C5: whenever both `orgName` and `envName` are non-empty, the command fails
with the mutual-exclusivity error, regardless of the secret name, visibility,
repos or body values, the flag-changed bits, and the collaborators. -/
theorem mutually_exclusive_targets (opts : SetOptions) (vc rc : Bool) (env : RunEnv)
    (h1 : opts.orgName ≠ "") (h2 : opts.envName ≠ "") :
    runCommand opts vc rc env = (.error (.flagError mutuallyExclusiveMsg), []) := by
  unfold runCommand
  rw [checkFlags_mutual opts vc rc h1 h2]

/-- Witness for C5 at a concrete flag combination. -/
theorem mutually_exclusive_targets_witness :
    runCommand bothTargetsOpts true true sampleEnv =
      (.error (.flagError mutuallyExclusiveMsg), []) :=
  mutually_exclusive_targets bothTargetsOpts true true sampleEnv (by decide) (by decide)

/-- C6: with the visibility flag explicitly set, the visibility checks fail
(with a `FlagError`, the spec's ConfigError) exactly when the organization
name is empty, or the visibility is outside all/private/selected, or a
non-selected visibility is combined with an explicitly set repos flag, or
selected visibility lacks an explicitly set repos flag. -/
theorem visibility_checks_config (opts : SetOptions) (reposChanged : Bool) :
    ((visibilityChecks opts reposChanged).isSome = true ↔
      (opts.orgName = "" ∨
        (opts.visibility ≠ sharedAll ∧ opts.visibility ≠ sharedPrivate ∧
          opts.visibility ≠ sharedSelected) ∨
        (opts.visibility ≠ sharedSelected ∧ reposChanged = true) ∨
        (opts.visibility = sharedSelected ∧ reposChanged = false))) ∧
    (∀ e, visibilityChecks opts reposChanged = some e → ∃ m, e = GoError.flagError m) := by
  constructor
  · unfold visibilityChecks
    split_ifs with h1 h2 h3 h4 <;> simp_all
    tauto
  · unfold visibilityChecks
    split_ifs <;> intro e he <;> simp_all
    all_goals exact ⟨_, he.symm⟩

/-- Witness for C6: with visibility explicitly set on a repository-scope
invocation (empty org), the checks fail. -/
theorem visibility_checks_config_witness :
    (visibilityChecks ⟨"MYSECRET", "", "", "", "private", []⟩ false).isSome = true ∧
    (∃ m, GoError.flagError "--repos flag required when --visibility=\x27selected\x27" =
      GoError.flagError m) :=
  ⟨(visibility_checks_config ⟨"MYSECRET", "", "", "", "private", []⟩ false).1.mpr
      (Or.inl rfl),
   (visibility_checks_config ⟨"MYSECRET", "anOrg", "", "", "selected", []⟩ false).2 _ (by decide)⟩

/-- Options with selected visibility, an organization target, and an empty
repository-name list. -/
def selEmptyOpts : SetOptions := ⟨"MYSECRET", "anOrg", "", "val", "selected", []⟩

/-- C7 counterexample: with the visibility flag set to selected and the repos
flag explicitly set to an empty repository-name list, the full resolution
succeeds, so "visibility selected with an empty repository-name list always
fails" is false — the code keys on whether the repos flag was set, not on the
list being non-empty. -/
theorem visibility_selected_cex :
    selEmptyOpts.visibility = "selected" ∧ selEmptyOpts.repositoryNames = [] ∧
    checkFlags selEmptyOpts true true = .ok selEmptyOpts :=
  ⟨rfl, rfl, by rfl⟩

/-- C7 (amended): with visibility explicitly selected, resolution fails when
the repos flag was not explicitly set, and passes when the repos flag was
explicitly set and the organization name is non-empty; any explicitly set
visibility other than selected combined with an explicitly set repos flag
always fails.  (The code tests the repos flag's changed bit, not the length of
the repository-name list.) -/
theorem visibility_selected_repos_flag (opts : SetOptions) :
    (opts.visibility = sharedSelected → (visibilityChecks opts false).isSome = true) ∧
    (opts.visibility = sharedSelected → opts.orgName ≠ "" →
      visibilityChecks opts true = none) ∧
    (opts.visibility ≠ sharedSelected → (visibilityChecks opts true).isSome = true) := by
  refine ⟨?_, ?_, ?_⟩ <;> unfold visibilityChecks
  · intro hv
    split_ifs with h1 h2 h3 h4 <;> simp_all
  · intro hv ho
    split_ifs with h1 h2 h3 h4 <;> simp_all
  · intro hv
    split_ifs with h1 h2 h3 h4 <;> simp_all

/-- Witness for C7 (amended) at concrete options. -/
theorem visibility_selected_repos_flag_witness :
    visibilityChecks selEmptyOpts true = none ∧
    (visibilityChecks selEmptyOpts false).isSome = true ∧
    (visibilityChecks ⟨"MYSECRET", "anOrg", "", "val", "all", []⟩ true).isSome = true :=
  ⟨(visibility_selected_repos_flag selEmptyOpts).2.1 rfl (by decide),
   (visibility_selected_repos_flag selEmptyOpts).1 rfl,
   (visibility_selected_repos_flag ⟨"MYSECRET", "anOrg", "", "val", "all", []⟩).2.2 (by decide)⟩

/-- C8 counterexample: visibility not explicitly set and repos explicitly set,
but with both org and env targets given — resolution fails with the
mutual-exclusivity ConfigError instead of succeeding. -/
theorem implicit_selected_cex :
    checkFlags bothTargetsOpts false true = .error (.flagError mutuallyExclusiveMsg) := by
  rfl

/-- C8 (amended): when the visibility flag is not explicitly set but the repos
flag is, the visibility-resolution step itself always resolves visibility to
selected with no error; the full resolution succeeds with resolved visibility
selected provided `orgName` and `envName` are not both non-empty and the secret
name is valid. -/
theorem implicit_selected_visibility (opts : SetOptions) :
    resolveVisibility opts false true = .ok { opts with visibility := sharedSelected } ∧
    (¬(opts.orgName ≠ "" ∧ opts.envName ≠ "") → validSecretName opts.secretName = none →
      checkFlags opts false true = .ok { opts with visibility := sharedSelected }) := by
  constructor
  · rfl
  · intro hme hname
    unfold checkFlags
    rw [mutual_none opts hme, hname]
    rfl

/-- Witness for C8 (amended) at a concrete organization invocation with two
selected repositories. -/
theorem implicit_selected_visibility_witness :
    checkFlags ⟨"MYSECRET", "anOrg", "", "val", "private", ["repo1", "repo2"]⟩ false true =
      .ok ⟨"MYSECRET", "anOrg", "", "val", "selected", ["repo1", "repo2"]⟩ :=
  (implicit_selected_visibility ⟨"MYSECRET", "anOrg", "", "val", "private", ["repo1", "repo2"]⟩).2
    (by decide) (by decide)

/-- C10: with an empty `Body` flag value the plaintext never comes from the
flag: it is the interactive prompt answer when prompting is possible and the
whole of standard input otherwise, while a non-empty `Body` is used directly. -/
theorem get_body_routes (canPrompt : Bool) (promptResult : Except String String)
    (stdinContents : Except String (List Nat)) (body : String) :
    (getBody "" true promptResult stdinContents =
      (match promptResult with
       | .error e => .error e
       | .ok answer => .ok (strBytes answer))) ∧
    (getBody "" false promptResult stdinContents =
      (match stdinContents with
       | .error e => .error ("failed to read from STDIN: " ++ e)
       | .ok bs => .ok bs)) ∧
    (body ≠ "" → getBody body canPrompt promptResult stdinContents = .ok (strBytes body)) := by
  refine ⟨rfl, rfl, ?_⟩
  intro h
  unfold getBody
  rw [if_neg h]

/-- Witness for C10 at concrete prompt, stdin and body values. -/
theorem get_body_routes_witness :
    getBody "" true (.ok "hunter2") (.ok [1, 2]) = .ok (strBytes "hunter2") ∧
    getBody "" false (.ok "hunter2") (.ok [1, 2]) = .ok [1, 2] ∧
    getBody "val" true (.ok "hunter2") (.ok [1, 2]) = .ok (strBytes "val") :=
  ⟨(get_body_routes true (.ok "hunter2") (.ok [1, 2]) "val").1,
   (get_body_routes false (.ok "hunter2") (.ok [1, 2]) "val").2.1,
   (get_body_routes true (.ok "hunter2") (.ok [1, 2]) "val").2.2 (by decide)⟩

lemma mix_length (seed : List Nat) (n : Nat) : (mix seed n).length = n := by
  simp [mix]

/-- C2: the sealed-box encryption stage is deterministic in its inputs — for
any plaintext and recipient key, two runs whose injected randomness sources
agree on the 32 bytes actually read produce identical output byte-for-byte
(in particular two runs over the same fixed source). -/
theorem seal_anonymous_deterministic (message recipientKey r1 r2 : List Nat)
    (h : r1.take 32 = r2.take 32) :
    sealAnonymous message recipientKey r1 = sealAnonymous message recipientKey r2 := by
  unfold sealAnonymous readFull
  have hlen : min 32 r1.length = min 32 r2.length := by
    have hc := congrArg List.length h
    simpa [List.length_take] using hc
  by_cases h1 : 32 ≤ r1.length
  · have h2 : 32 ≤ r2.length := by
      by_contra hn
      push_neg at hn
      rw [Nat.min_eq_left h1, Nat.min_eq_right (le_of_lt hn)] at hlen
      omega
    simp [h1, h2, h]
  · have h2 : ¬ 32 ≤ r2.length := by
      by_contra hn
      push_neg at h1
      rw [Nat.min_eq_right (le_of_lt h1), Nat.min_eq_left hn] at hlen
      omega
    simp [h1, h2]

/-- Witness for C2: two distinct randomness streams agreeing on their first 32
bytes yield the same sealed output. -/
theorem seal_anonymous_deterministic_witness :
    sealAnonymous [1, 2, 3] (List.replicate 32 9) (List.range 33) =
      sealAnonymous [1, 2, 3] (List.replicate 32 9) (List.range 32 ++ [99, 100]) :=
  seal_anonymous_deterministic [1, 2, 3] (List.replicate 32 9) (List.range 33)
    (List.range 32 ++ [99, 100]) (by decide)

/-- C3: whenever the sealed-box stage succeeds, the sealed output (before
base64 encoding) is exactly the 32-byte ephemeral public key plus the
plaintext length plus the 16-byte authentication tag. -/
theorem seal_anonymous_length (message recipientKey rand out : List Nat)
    (h : sealAnonymous message recipientKey rand = .ok out) :
    out.length = 32 + message.length + 16 := by
  unfold sealAnonymous readFull at h
  by_cases hk : recipientKey.length ≠ 32
  · rw [if_pos hk] at h
    exact absurd h (by simp)
  · rw [if_neg hk] at h
    by_cases hr : 32 ≤ rand.length
    · simp only [if_pos hr] at h
      rw [Except.ok.injEq] at h
      rw [← h]
      simp [boxSeal, List.length_append, mix_length, List.length_zipWith]
      omega
    · simp only [if_neg hr] at h
      exact absurd h (by simp)

/-- Witness for C3: a 3-byte plaintext seals to 51 bytes. -/
theorem seal_anonymous_length_witness :
    ((sealAnonymous [1, 2, 3] (List.replicate 32 9) (List.range 40)).toOption.getD []).length =
      32 + 3 + 16 :=
  seal_anonymous_length [1, 2, 3] (List.replicate 32 9) (List.range 40) _ (by rfl)

lemma orgFlow_shape (opts : SetOptions) (env : RunEnv) (body : List Nat) (host : String) :
    ((orgFlow opts env body host).1 ≠ .ok () ∧
      (orgFlow opts env body host).2 = [NetEvent.fetchOrgKey host opts.orgName]) ∨
    (∃ enc, (orgFlow opts env body host).2 =
      [NetEvent.fetchOrgKey host opts.orgName,
       NetEvent.putOrg host opts.orgName opts.secretName enc]) := by
  cases hk : env.orgKey with
  | error e => exact Or.inl ⟨by simp [orgFlow, hk], by simp [orgFlow, hk]⟩
  | ok pk =>
    cases hs : sealAnonymous body pk.raw env.randomBytes with
    | error e => exact Or.inl ⟨by simp [orgFlow, hk, hs], by simp [orgFlow, hk, hs]⟩
    | ok sealed =>
      cases hp : env.putOrgResult with
      | some e => exact Or.inr ⟨base64Encode sealed, by simp [orgFlow, hk, hs, hp]⟩
      | none => exact Or.inr ⟨base64Encode sealed, by simp [orgFlow, hk, hs, hp]⟩

lemma repoFlow_shape (opts : SetOptions) (env : RunEnv) (body : List Nat) (r : Repo) :
    ((repoFlow opts env body r).1 ≠ .ok () ∧
      (repoFlow opts env body r).2 = [NetEvent.fetchRepoKey r.owner r.name]) ∨
    (∃ w, (repoFlow opts env body r).2 = [NetEvent.fetchRepoKey r.owner r.name, w] ∧
      (if opts.envName = "" then w.isRepoWrite else w.isEnvWrite) = true) := by
  cases hk : env.repoKey with
  | error e => exact Or.inl ⟨by simp [repoFlow, hk], by simp [repoFlow, hk]⟩
  | ok pk =>
    cases hs : sealAnonymous body pk.raw env.randomBytes with
    | error e => exact Or.inl ⟨by simp [repoFlow, hk, hs], by simp [repoFlow, hk, hs]⟩
    | ok sealed =>
      by_cases he : opts.envName = ""
      · cases hp : env.putRepoResult with
        | some e =>
          refine Or.inr ⟨NetEvent.putRepo r.owner r.name opts.secretName (base64Encode sealed),
            by simp [repoFlow, hk, hs, he, hp], by simp [he, NetEvent.isRepoWrite]⟩
        | none =>
          refine Or.inr ⟨NetEvent.putRepo r.owner r.name opts.secretName (base64Encode sealed),
            by simp [repoFlow, hk, hs, he, hp], by simp [he, NetEvent.isRepoWrite]⟩
      · cases hp : env.putEnvResult with
        | some e =>
          refine Or.inr ⟨NetEvent.putEnv r.owner r.name opts.envName opts.secretName
              (base64Encode sealed),
            by simp [repoFlow, hk, hs, he, hp, bne_iff_ne], by simp [he, NetEvent.isEnvWrite]⟩
        | none =>
          refine Or.inr ⟨NetEvent.putEnv r.owner r.name opts.envName opts.secretName
              (base64Encode sealed),
            by simp [repoFlow, hk, hs, he, hp, bne_iff_ne], by simp [he, NetEvent.isEnvWrite]⟩

lemma setRun_shape (opts : SetOptions) (env : RunEnv) :
    ((setRun opts env).1 ≠ .ok () ∧ (setRun opts env).2 = []) ∨
    ((setRun opts env).1 ≠ .ok () ∧
      ∃ f, (setRun opts env).2 = [f] ∧ goodFetch opts f = true) ∨
    (∃ f w, (setRun opts env).2 = [f, w] ∧ goodFetch opts f = true ∧
      goodWrite opts w = true) := by
  cases hb : getBody opts.body env.canPrompt env.promptResult env.stdinContents with
  | error e => exact Or.inl ⟨by simp [setRun, hb], by simp [setRun, hb]⟩
  | ok body =>
    cases hc : env.httpClient with
    | error e => exact Or.inl ⟨by simp [setRun, hb, hc], by simp [setRun, hb, hc]⟩
    | ok u =>
      by_cases ho : opts.orgName = ""
      · cases hbr : env.baseRepo with
        | error e => exact Or.inl ⟨by simp [setRun, hb, hc, ho, hbr], by simp [setRun, hb, hc, ho, hbr]⟩
        | ok r =>
          cases hcf : env.config with
          | error e =>
            exact Or.inl ⟨by simp [setRun, hb, hc, ho, hbr, hcf], by simp [setRun, hb, hc, ho, hbr, hcf]⟩
          | ok v =>
            cases hh : env.defaultHost with
            | error e =>
              exact Or.inl ⟨by simp [setRun, hb, hc, ho, hbr, hcf, hh],
                by simp [setRun, hb, hc, ho, hbr, hcf, hh]⟩
            | ok host =>
              have hsr : setRun opts env = repoFlow opts env body r := by
                simp [setRun, hb, hc, ho, hbr, hcf, hh]
              rw [hsr]
              rcases repoFlow_shape opts env body r with ⟨hne, htr⟩ | ⟨w, htr, hw⟩
              · exact Or.inr (Or.inl ⟨hne, NetEvent.fetchRepoKey r.owner r.name, htr,
                  by simp [goodFetch, ho, NetEvent.isRepoKeyFetch]⟩)
              · exact Or.inr (Or.inr ⟨NetEvent.fetchRepoKey r.owner r.name, w, htr,
                  by simp [goodFetch, ho, NetEvent.isRepoKeyFetch],
                  by simpa [goodWrite, ho] using hw⟩)
      · cases hcf : env.config with
        | error e =>
          exact Or.inl ⟨by simp [setRun, hb, hc, ho, hcf], by simp [setRun, hb, hc, ho, hcf]⟩
        | ok v =>
          cases hh : env.defaultHost with
          | error e =>
            exact Or.inl ⟨by simp [setRun, hb, hc, ho, hcf, hh], by simp [setRun, hb, hc, ho, hcf, hh]⟩
          | ok host =>
            have hsr : setRun opts env = orgFlow opts env body host := by
              simp [setRun, hb, hc, ho, hcf, hh]
            rw [hsr]
            rcases orgFlow_shape opts env body host with ⟨hne, htr⟩ | ⟨enc, htr⟩
            · exact Or.inr (Or.inl ⟨hne, NetEvent.fetchOrgKey host opts.orgName, htr,
                by simp [goodFetch, ho, NetEvent.isOrgKeyFetch]⟩)
            · exact Or.inr (Or.inr ⟨NetEvent.fetchOrgKey host opts.orgName,
                NetEvent.putOrg host opts.orgName opts.secretName enc, htr,
                by simp [goodFetch, ho, NetEvent.isOrgKeyFetch],
                by simp [goodWrite, ho, NetEvent.isOrgWrite]⟩)

lemma good_fetch_not_write (opts : SetOptions) (f : NetEvent) (hf : goodFetch opts f = true) :
    f.isWrite = false := by
  by_cases ho : opts.orgName = "" <;> cases f <;>
    simp_all [goodFetch, NetEvent.isOrgKeyFetch, NetEvent.isRepoKeyFetch, NetEvent.isWrite,
      NetEvent.isOrgWrite, NetEvent.isEnvWrite, NetEvent.isRepoWrite]

lemma good_fetch_isKeyFetch (opts : SetOptions) (f : NetEvent) (hf : goodFetch opts f = true) :
    f.isKeyFetch = true := by
  by_cases ho : opts.orgName = "" <;> cases f <;>
    simp_all [goodFetch, NetEvent.isOrgKeyFetch, NetEvent.isRepoKeyFetch, NetEvent.isKeyFetch]

lemma good_write_isWrite (opts : SetOptions) (w : NetEvent) (hw : goodWrite opts w = true) :
    w.isWrite = true := by
  by_cases ho : opts.orgName = "" <;> by_cases he : opts.envName = "" <;> cases w <;>
    simp_all [goodWrite, NetEvent.isWrite, NetEvent.isOrgWrite, NetEvent.isEnvWrite,
      NetEvent.isRepoWrite]

lemma counts_of_good (opts : SetOptions) (f w : NetEvent)
    (hf : goodFetch opts f = true) (hw : goodWrite opts w = true) :
    [f, w].countP NetEvent.isKeyFetch = 1 ∧ [f, w].countP NetEvent.isWrite = 1 ∧
    (opts.orgName ≠ "" →
      [f, w].countP NetEvent.isOrgKeyFetch = 1 ∧ [f, w].countP NetEvent.isOrgWrite = 1) ∧
    (opts.orgName = "" → opts.envName ≠ "" →
      [f, w].countP NetEvent.isRepoKeyFetch = 1 ∧ [f, w].countP NetEvent.isEnvWrite = 1) ∧
    (opts.orgName = "" → opts.envName = "" →
      [f, w].countP NetEvent.isRepoKeyFetch = 1 ∧ [f, w].countP NetEvent.isRepoWrite = 1) := by
  by_cases ho : opts.orgName = "" <;> by_cases he : opts.envName = "" <;>
    cases f <;> cases w <;>
      simp_all [goodFetch, goodWrite, NetEvent.isOrgKeyFetch, NetEvent.isRepoKeyFetch,
        NetEvent.isOrgWrite, NetEvent.isEnvWrite, NetEvent.isRepoWrite, NetEvent.isKeyFetch,
        NetEvent.isWrite, List.countP_cons, List.countP_nil]

/-- C1: every `setRun` invocation makes at most one write call, and on the
success path exactly one public-key fetch and exactly one write call, routed
by the resolved scope: org-level key fetch and organization write when
`orgName` is non-empty; otherwise repo-level key fetch, with the environment
write when `envName` is non-empty and the repository write when it is empty. -/
theorem setRun_one_fetch_one_write (opts : SetOptions) (env : RunEnv) :
    (setRun opts env).2.countP NetEvent.isWrite ≤ 1 ∧
    ((setRun opts env).1 = .ok () →
      (setRun opts env).2.countP NetEvent.isKeyFetch = 1 ∧
      (setRun opts env).2.countP NetEvent.isWrite = 1 ∧
      (opts.orgName ≠ "" →
        (setRun opts env).2.countP NetEvent.isOrgKeyFetch = 1 ∧
        (setRun opts env).2.countP NetEvent.isOrgWrite = 1) ∧
      (opts.orgName = "" → opts.envName ≠ "" →
        (setRun opts env).2.countP NetEvent.isRepoKeyFetch = 1 ∧
        (setRun opts env).2.countP NetEvent.isEnvWrite = 1) ∧
      (opts.orgName = "" → opts.envName = "" →
        (setRun opts env).2.countP NetEvent.isRepoKeyFetch = 1 ∧
        (setRun opts env).2.countP NetEvent.isRepoWrite = 1)) := by
  rcases setRun_shape opts env with ⟨hne, htr⟩ | ⟨hne, f, htr, hf⟩ | ⟨f, w, htr, hf, hw⟩
  · rw [htr]
    exact ⟨by simp, fun hok => absurd hok hne⟩
  · rw [htr]
    refine ⟨?_, fun hok => absurd hok hne⟩
    simp [List.countP_cons, List.countP_nil, good_fetch_not_write opts f hf]
  · rw [htr]
    obtain ⟨h1, h2, h3, h4, h5⟩ := counts_of_good opts f w hf hw
    exact ⟨le_of_eq h2, fun _ => ⟨h1, h2, h3, h4, h5⟩⟩

/-- Witness for C1: a concrete repository-scope run succeeds and makes exactly
one write call. -/
theorem setRun_one_fetch_one_write_witness :
    (setRun ⟨"MYSECRET", "", "", "val", "private", []⟩ sampleEnv).1 = .ok () ∧
    (setRun ⟨"MYSECRET", "", "", "val", "private", []⟩ sampleEnv).2.countP
      NetEvent.isWrite = 1 :=
  ⟨by rfl,
   ((setRun_one_fetch_one_write ⟨"MYSECRET", "", "", "val", "private", []⟩ sampleEnv).2
      (by rfl)).2.1⟩

/-- C9 counterexample: on an input whose secret name is invalid but which also
names both org and env targets, the command reports the mutual-exclusivity
ConfigError, not the name error — so the name validator does not run before
every scope-resolution check. -/
theorem pipeline_order_cex :
    validSecretName "9SECRET" =
      some (.plainError "secret name cannot start with a number") ∧
    runCommand ⟨"9SECRET", "anOrg", "anEnv", "val", "private", []⟩ false false sampleEnv =
      (.error (.flagError mutuallyExclusiveMsg), []) :=
  ⟨by decide, by rfl⟩

/-- C9 (amended): the checks run in the order mutual-exclusivity
(TargetResolver step 1) first, then NameValidator, then the remaining
TargetResolver visibility checks, and all three fire before any network
access (empty trace); within `setRun` the key fetch strictly precedes the
write, a write happens only after a successful fetch and encryption, and a
successful run performs a fetch followed by a write. -/
theorem pipeline_order_amended :
    (∀ (opts : SetOptions) (vc rc : Bool) (env : RunEnv),
      opts.orgName ≠ "" → opts.envName ≠ "" →
      runCommand opts vc rc env = (.error (.flagError mutuallyExclusiveMsg), [])) ∧
    (∀ (opts : SetOptions) (vc rc : Bool) (env : RunEnv) (e : GoError),
      ¬(opts.orgName ≠ "" ∧ opts.envName ≠ "") →
      validSecretName opts.secretName = some e →
      runCommand opts vc rc env = (.error e, [])) ∧
    (∀ (opts : SetOptions) (rc : Bool) (env : RunEnv) (e : GoError),
      ¬(opts.orgName ≠ "" ∧ opts.envName ≠ "") →
      validSecretName opts.secretName = none →
      visibilityChecks opts rc = some e →
      runCommand opts true rc env = (.error e, [])) ∧
    (∀ (opts : SetOptions) (env : RunEnv),
      (setRun opts env).2 = [] ∨
      (∃ f, (setRun opts env).2 = [f] ∧ NetEvent.isKeyFetch f = true) ∨
      (∃ f w, (setRun opts env).2 = [f, w] ∧ NetEvent.isKeyFetch f = true ∧
        NetEvent.isWrite w = true)) ∧
    (∀ (opts : SetOptions) (env : RunEnv), (setRun opts env).1 = .ok () →
      ∃ f w, (setRun opts env).2 = [f, w] ∧ NetEvent.isKeyFetch f = true ∧
        NetEvent.isWrite w = true) := by
  refine ⟨?_, ?_, ?_, ?_, ?_⟩
  · intro opts vc rc env h1 h2
    unfold runCommand
    rw [checkFlags_mutual opts vc rc h1 h2]
  · intro opts vc rc env e h hn
    unfold runCommand
    rw [checkFlags_name opts vc rc e h hn]
  · intro opts rc env e h hn hv
    unfold runCommand
    rw [checkFlags_vis opts rc e h hn hv]
  · intro opts env
    rcases setRun_shape opts env with ⟨hne, htr⟩ | ⟨hne, f, htr, hf⟩ | ⟨f, w, htr, hf, hw⟩
    · exact Or.inl htr
    · exact Or.inr (Or.inl ⟨f, htr, good_fetch_isKeyFetch opts f hf⟩)
    · exact Or.inr (Or.inr ⟨f, w, htr, good_fetch_isKeyFetch opts f hf,
        good_write_isWrite opts w hw⟩)
  · intro opts env hok
    rcases setRun_shape opts env with ⟨hne, htr⟩ | ⟨hne, f, htr, hf⟩ | ⟨f, w, htr, hf, hw⟩
    · exact absurd hok hne
    · exact absurd hok hne
    · exact ⟨f, w, htr, good_fetch_isKeyFetch opts f hf, good_write_isWrite opts w hw⟩

/-- Witness for C9 (amended): with only an org target and an invalid name, the
name error is reported with no network access. -/
theorem pipeline_order_amended_witness :
    runCommand ⟨"9SECRET", "anOrg", "", "val", "private", []⟩ false false sampleEnv =
      (.error (.plainError "secret name cannot start with a number"), []) :=
  pipeline_order_amended.2.1 ⟨"9SECRET", "anOrg", "", "val", "private", []⟩ false false
    sampleEnv (.plainError "secret name cannot start with a number") (by decide) (by decide)
